import Mathlib

/-!
Verification of the libtc Deluge client (`src/libtc/clients/deluge.py`) against its
natural-language specification.

The Python code is shallowly embedded: byte strings become `List Nat`, the decoded
bencode object model becomes the inductive `BValue`, filesystem state and the RPC
backend become explicit environment records, and raised exceptions become an
`Except` error channel.  Components of the repository that are imported by
`deluge.py` but whose source is not part of the unit under `src/` (the bencode
codec, the filesystem mapper and completeness evaluator from `libtc.utils`) are
modelled from the specification text and are marked as such in their doc comments.
-/

/-- Byte strings: each element is a byte value. -/
abbrev Bytes := List Nat

/-- ASCII bytes of a Lean string (models Python `str.encode()` for ASCII data). -/
def bytesOfString (s : String) : Bytes :=
  s.toList.map Char.toNat

/-- Decodes bytes back into a Lean string (models Python `bytes.decode()`). -/
def stringOfBytes (b : Bytes) : String :=
  String.mk (b.map Char.ofNat)

/-- Decoded bencode values: integers, byte strings, lists, and dictionaries with
byte-string keys (Python's decoded-object model for `.torrent` data). -/
inductive BValue where
  | int (n : Int)
  | str (s : Bytes)
  | list (xs : List BValue)
  | dict (xs : List (Bytes × BValue))
deriving Repr

/-- Strict lexicographic order on byte strings (raw byte value, ascending). -/
def bytesLt : Bytes → Bytes → Bool
  | [], [] => false
  | [], _ :: _ => true
  | _ :: _, [] => false
  | a :: as, b :: bs => if a < b then true else if b < a then false else bytesLt as bs

/-- Insert an encoded dictionary entry into a key-sorted list of entries. -/
def insertPair (p : Bytes × Bytes) : List (Bytes × Bytes) → List (Bytes × Bytes)
  | [] => [p]
  | q :: qs => if bytesLt p.1 q.1 then p :: q :: qs else q :: insertPair p qs

/-- Sort encoded dictionary entries by raw key bytes, ascending. -/
def sortPairs : List (Bytes × Bytes) → List (Bytes × Bytes)
  | [] => []
  | p :: ps => insertPair p (sortPairs ps)

/-- Decimal digits of a natural number, as bytes. -/
def natDecBytes (n : Nat) : Bytes :=
  bytesOfString (toString n)

/-- Minimal decimal representation of an integer, as bytes (no leading zeros,
no leading plus sign). -/
def intDecBytes (n : Int) : Bytes :=
  bytesOfString (toString n)

/-- Bencode serialization of one byte string: `<length>:<bytes>`. -/
def bencodeStrBytes (s : Bytes) : Bytes :=
  natDecBytes s.length ++ [58] ++ s

mutual

/-- Modelled from the spec: the Bencode Codec's `encode` (§4.1), imported by
`deluge.py` as `libtc.bencode.bencode` but not part of the shown unit.
Integers serialize as `i<decimal>e`, byte strings as `<length>:<bytes>`,
sequences as `l<items>e`, and mappings as `d<key><value>...e` with entries
sorted by raw key bytes ascending. -/
def bencode : BValue → Bytes
  | .int n => [105] ++ intDecBytes n ++ [101]
  | .str s => bencodeStrBytes s
  | .list xs => [108] ++ bencodeItems xs ++ [101]
  | .dict xs => [100] ++ (sortPairs (bencodePairs xs)).foldr (fun p acc => p.2 ++ acc) [] ++ [101]

/-- Concatenated encodings of a sequence's items, in order. -/
def bencodeItems : List BValue → Bytes
  | [] => []
  | x :: xs => bencode x ++ bencodeItems xs

/-- Encodes each dictionary entry as `(raw key, <encoded key><encoded value>)`. -/
def bencodePairs : List (Bytes × BValue) → List (Bytes × Bytes)
  | [] => []
  | (k, v) :: xs => (k, bencodeStrBytes k ++ bencode v) :: bencodePairs xs

end

/-! ### SHA-1 (model of Python's `hashlib.sha1(...).hexdigest()`)

`deluge.py` computes the expected infohash with `hashlib.sha1(...).hexdigest()`.
`hashlib` is an external standard-library dependency; it is modelled here by a
direct implementation of FIPS 180-1 SHA-1 over byte lists, with 32-bit words
represented as `Nat` reduced modulo `2 ^ 32`. -/

/-- Truncate to a 32-bit word. -/
def w32 (n : Nat) : Nat := n % 4294967296

/-- Rotate a 32-bit word left by `k` bits. -/
def rotl (k n : Nat) : Nat := w32 ((n <<< k) ||| (n >>> (32 - k)))

/-- Big-endian 8-byte encoding of a natural number (the message bit length). -/
def be8 (n : Nat) : Bytes :=
  [w32 (n >>> 56) % 256, (n >>> 48) % 256, (n >>> 40) % 256, (n >>> 32) % 256,
   (n >>> 24) % 256, (n >>> 16) % 256, (n >>> 8) % 256, n % 256]

/-- SHA-1 padding: append `0x80`, zero bytes to 56 mod 64, then the bit length. -/
def sha1pad (ms : Bytes) : Bytes :=
  ms ++ [128] ++ List.replicate ((55 - ms.length % 64 + 64) % 64) 0 ++ be8 (ms.length * 8)

/-- Group bytes into big-endian 32-bit words. -/
def toWords : Bytes → List Nat
  | a :: b :: c :: d :: rest => (((a * 256 + b) * 256 + c) * 256 + d) :: toWords rest
  | _ => []

/-- One message-schedule extension step: append `rotl 1 (w[t-3] ^ w[t-8] ^ w[t-14] ^ w[t-16])`. -/
def schedStep (ws : List Nat) : List Nat :=
  ws ++ [rotl 1 (((ws.getD (ws.length - 3) 0 ^^^ ws.getD (ws.length - 8) 0) ^^^
      ws.getD (ws.length - 14) 0) ^^^ ws.getD (ws.length - 16) 0)]

/-- Iterate the schedule extension `n` times. -/
def schedExtend : Nat → List Nat → List Nat
  | 0, ws => ws
  | n + 1, ws => schedExtend n (schedStep ws)

/-- The 80-word message schedule of one 64-byte chunk. -/
def sha1schedule (chunk : Bytes) : List Nat :=
  schedExtend 64 (toWords chunk)

/-- One SHA-1 compression round; `i` is the round index, `wi` the schedule word. -/
def sha1round (st : Nat × Nat × Nat × Nat × Nat) (i wi : Nat) : Nat × Nat × Nat × Nat × Nat :=
  let (a, b, c, d, e) := st
  let f :=
    if i < 20 then (b &&& c) ||| ((b ^^^ 4294967295) &&& d)
    else if i < 40 then (b ^^^ c) ^^^ d
    else if i < 60 then ((b &&& c) ||| (b &&& d)) ||| (c &&& d)
    else (b ^^^ c) ^^^ d
  let k :=
    if i < 20 then 1518500249
    else if i < 40 then 1859775393
    else if i < 60 then 2400959708
    else 3395469782
  (w32 (rotl 5 a + f + e + k + wi), a, rotl 30 b, c, d)

/-- Process one 64-byte chunk, updating the five-word state. -/
def sha1chunk (h : Nat × Nat × Nat × Nat × Nat) (chunk : Bytes) : Nat × Nat × Nat × Nat × Nat :=
  let (h0, h1, h2, h3, h4) := h
  let (a, b, c, d, e) := (sha1schedule chunk).enum.foldl (fun st p => sha1round st p.1 p.2)
    (h0, h1, h2, h3, h4)
  (w32 (h0 + a), w32 (h1 + b), w32 (h2 + c), w32 (h3 + d), w32 (h4 + e))

/-- Split a byte list into 64-byte chunks; `fuel` bounds the recursion. -/
def chunks64Go : Nat → Bytes → List Bytes
  | 0, _ => []
  | _ + 1, [] => []
  | n + 1, bs => bs.take 64 :: chunks64Go n (bs.drop 64)

/-- Split a byte list into 64-byte chunks. -/
def chunks64 (bs : Bytes) : List Bytes :=
  chunks64Go bs.length bs

/-- SHA-1 digest as five 32-bit words. -/
def sha1words (ms : Bytes) : Nat × Nat × Nat × Nat × Nat :=
  (chunks64 (sha1pad ms)).foldl sha1chunk
    (1732584193, 4023233417, 2562383102, 271733878, 3285377520)

/-- A 32-bit word as eight lowercase hexadecimal characters. -/
def hex8 (n : Nat) : String :=
  let ds := Nat.toDigits 16 n
  String.mk (List.replicate (8 - ds.length) '0' ++ ds)

/-- Model of `hashlib.sha1(ms).hexdigest()`: the 40-character lowercase
hexadecimal presentation of the 20-byte SHA-1 digest. -/
def sha1hex (ms : Bytes) : String :=
  let (h0, h1, h2, h3, h4) := sha1words ms
  hex8 h0 ++ hex8 h1 ++ hex8 h2 ++ hex8 h3 ++ hex8 h4

/-! ### Base64 (model of Python's `base64.b64encode`) -/

/-- The base64 alphabet, indexed 0–63. -/
def b64alphabet : Bytes :=
  bytesOfString "ABCDEFGHIJKLMNOPQRSTUVWXYZabcdefghijklmnopqrstuvwxyz0123456789+/"

/-- Look up one 6-bit group in the base64 alphabet. -/
def b64char (n : Nat) : Nat := b64alphabet.getD n 65

/-- Model of `base64.b64encode`: standard base64 with `=` padding, as bytes. -/
def b64encode : Bytes → Bytes
  | [] => []
  | [a] => [b64char (a >>> 2), b64char ((a &&& 3) <<< 4), 61, 61]
  | [a, b] => [b64char (a >>> 2), b64char (((a &&& 3) <<< 4) ||| (b >>> 4)),
      b64char ((b &&& 15) <<< 2), 61]
  | a :: b :: c :: rest =>
      b64char (a >>> 2) :: b64char (((a &&& 3) <<< 4) ||| (b >>> 4)) ::
        b64char (((b &&& 15) <<< 2) ||| (c >>> 6)) :: b64char (c &&& 63) :: b64encode rest

/-! ### Torrent structure access -/

/-- Lookup in a bencode dictionary's entry list (first match; Python dict keys
are unique). -/
def lookupPairs : List (Bytes × BValue) → Bytes → Option BValue
  | [], _ => none
  | (k, v) :: xs, key => if k = key then some v else lookupPairs xs key

/-- Model of Python's `value[key]` on a decoded bencode value: a lookup that
succeeds only on dictionaries holding the key (otherwise Python raises). -/
def dictLookup (v : BValue) (key : Bytes) : Option BValue :=
  match v with
  | .dict xs => lookupPairs xs key
  | _ => none

/-- The raw bytes of the `info` key. -/
def infoKey : Bytes := bytesOfString "info"

/-- View a bencode value as a byte string. -/
def asStr : BValue → Option Bytes
  | .str s => some s
  | _ => none

/-- View a bencode value as an integer. -/
def asInt : BValue → Option Int
  | .int n => some n
  | _ => none

/-- View a bencode value as a list. -/
def asList : BValue → Option (List BValue)
  | .list xs => some xs
  | _ => none

/-- `Option`-valued `mapM` over a list with an explicit structural recursion. -/
def optMapM (f : α → Option β) : List α → Option (List β)
  | [] => some []
  | x :: xs =>
    match f x, optMapM f xs with
    | some y, some ys => some (y :: ys)
    | _, _ => none

/-- One declared file of a multi-file torrent: its relative path (components
joined by the path separator) and its declared length. -/
def declaredFileEntry (v : BValue) : Option (String × Int) :=
  match dictLookup v (bytesOfString "path") with
  | none => none
  | some pv =>
    match asList pv with
    | none => none
    | some comps =>
      match optMapM asStr comps with
      | none => none
      | some parts =>
        match (dictLookup v (bytesOfString "length")).bind asInt with
        | none => none
        | some len => some (String.intercalate "/" (parts.map stringOfBytes), len)

/-- The ordered declared file list of a torrent: one `(relative path, length)`
pair per declared file, in declared order.  Multi-file torrents read
`info.files`; single-file torrents contribute `(info.name, info.length)`. -/
def declaredFiles (torrent : BValue) : Option (List (String × Int)) :=
  match dictLookup torrent infoKey with
  | none => none
  | some info =>
    match (dictLookup info (bytesOfString "name")).bind asStr with
    | none => none
    | some name =>
      match dictLookup info (bytesOfString "files") with
      | some fl =>
        match asList fl with
        | none => none
        | some items => optMapM declaredFileEntry items
      | none =>
        match (dictLookup info (bytesOfString "length")).bind asInt with
        | none => none
        | some len => some [(stringOfBytes name, len)]

/-- The declared top-level name of a torrent. -/
def torrentName (torrent : BValue) : Option String :=
  ((dictLookup torrent infoKey).bind fun info =>
    (dictLookup info (bytesOfString "name")).bind asStr).map stringOfBytes

/-! ### Filesystem Mapper and Completeness Evaluator

These live in `libtc.utils`, which `deluge.py` imports but whose source is not
part of the shown unit; they are modelled from the specification (§4.2, §4.3). -/

/-- A file-system snapshot: maps an absolute path string to the size of the
regular file there, or `none` when no such file exists. -/
abbrev FsState := String → Option Int

/-- One mapped file, mirroring the tuple `(fp, f, size, exists)` that
`DelugeClient.add` destructures: resolved destination path, declared relative
path, declared length, and whether a file of exactly the declared length is
present at the resolved path. -/
structure FileEntry where
  fp : String
  f : String
  size : Int
  found : Bool
deriving Repr, DecidableEq

/-- Path joining with the path separator (models `pathlib`'s `/` operator). -/
def joinPath (a b : String) : String := a ++ "/" ++ b

/-- Modelled from the spec: the Filesystem Mapper `map_existing_files` (§4.2),
imported from `libtc.utils` but not part of the shown unit.  Produces one entry
per declared file, preserving declared order; the resolved path is
`destination [/ name] / declared-relative-path`, with the `name` component
inserted exactly when `add_name_to_folder` is true.  Returns `none` when the
torrent lacks the required `info` structure (Python raises there). -/
def map_existing_files (fs : FsState) (torrent : BValue) (path : String)
    (add_name_to_folder : Bool) : Option (List FileEntry) :=
  match declaredFiles torrent, torrentName torrent with
  | some entries, some name =>
    some (entries.map fun e =>
      let fp := if add_name_to_folder then joinPath (joinPath path name) e.1
        else joinPath path e.1
      ⟨fp, e.1, e.2, decide (fs fp = some e.2)⟩)
  | _, _ => none

/-- Total bytes of the matched entries of a mapped file list. -/
def matchedBytes (files : List FileEntry) : Int :=
  files.foldl (fun acc e => acc + if e.found then e.size else 0) 0

/-- Modelled from the spec: the Completeness Evaluator's classification (§4.3),
`calculate_minimum_expected_data` from `libtc.utils` (not part of the shown
unit): `full` when every mapped entry is matched, `none` when zero bytes are
matched, and the middle tier `high` otherwise. -/
def calculate_minimum_expected_data (fs : FsState) (torrent : BValue)
    (destination_path : String) (add_name_to_folder : Bool) : Option String :=
  (map_existing_files fs torrent destination_path add_name_to_folder).map fun files =>
    if files.all (·.found) then "full"
    else if matchedBytes files = 0 then "none"
    else "high"

/-- Modelled from the spec: the ordered policy levels of MinimumExpectedData
(§3: an ordered set `none < high < full`). -/
def levelIndex : String → Option Nat
  | "none" => some 0
  | "high" => some 1
  | "full" => some 2
  | _ => none

/-- Modelled from the spec: the gate comparison `has_minimum_expected_data`
from `libtc.utils` (not part of the shown unit): accept exactly when the
current classification reaches the required one under the policy order. -/
def has_minimum_expected_data (minimum actual : String) : Bool :=
  match levelIndex minimum, levelIndex actual with
  | some a, some b => decide (a ≤ b)
  | _, _ => false

/-! ### The Deluge client's `add` -/

/-- Raised Python exceptions, as an error value.  `failedToExecute` models
`libtc.exceptions.FailedToExecuteException`, whose source is not part of the
shown unit: per the code's uses it carries an optional message.  `keyError`
models a Python `KeyError`/`TypeError` escaping on malformed input. -/
inductive PyError where
  | failedToExecute (msg : Option String)
  | keyError
deriving Repr, DecidableEq

/-- The options mapping handed to `core.add_torrent_file`. -/
structure AddOptions where
  download_location : String
  seed_mode : Bool
  mapped_files : Option (List (Nat × String))
deriving Repr, DecidableEq

/-- One invocation of the backend's `core.add_torrent_file`, with the
arguments the code passes. -/
structure BackendCall where
  filename : String
  payload : Bytes
  options : AddOptions
deriving Repr, DecidableEq

/-- Environment of one `add` call: the filesystem snapshot, the semantics of
`Path.resolve()` (absolute, symlink-normalized resolution), and the backend's
response to `add_torrent_file` — a transport-level failure or the infohash the
daemon reports. -/
structure AddEnv where
  fs : FsState
  resolve : String → String
  backend : Except Unit String

/-- Outcome of one `add` call: the returned value or raised error, together
with the list of backend `add_torrent_file` invocations made.  The success
value mirrors the Python return value (`none` = Python `None`). -/
structure AddResult where
  result : Except PyError (Option String)
  calls : List BackendCall
deriving Repr

/-- The gate-rejection message of `DelugeClient.add` (line 118). -/
def gateMessage (minimum actual : String) : String :=
  "Minimum expected data not reached, wanted " ++ minimum ++ " actual " ++ actual

/-- The `mapped_files` option: absent when `add_name_to_folder` is true,
otherwise one entry per mapped file, keyed by zero-based position, holding the
relative path string (lines 126–131).  The outer `Option` is the Python
exception channel. -/
def mappedFilesOpt (fs : FsState) (torrent : BValue) (destination : String)
    (add_name_to_folder : Bool) : Option (Option (List (Nat × String))) :=
  if add_name_to_folder then some none
  else (map_existing_files fs torrent destination false).map fun files =>
    some (files.enum.map fun p => (p.1, p.2.f))

/-- The expected infohash computed inside `DelugeClient.add` (line 121):
the hex-presented SHA-1 digest of the canonical bencoding of the torrent's
`info` entry alone. -/
def deluge_expected_infohash (torrent : BValue) : Option String :=
  (dictLookup torrent infoKey).map fun info => sha1hex (bencode info)

namespace DelugeClient

/-- Embedding of `DelugeClient.add` (`deluge.py` lines 115–140): completeness
gate, destination resolution, payload encoding, expected-infohash computation,
option construction, the backend call, and the post-hoc identity check. -/
def add (env : AddEnv) (torrent : BValue) (destination_path : String)
    (fast_resume : Bool) (add_name_to_folder : Bool)
    (minimum_expected_data : String) : AddResult :=
  match calculate_minimum_expected_data env.fs torrent destination_path add_name_to_folder with
  | none => ⟨.error .keyError, []⟩
  | some current_expected_data =>
    if ¬ has_minimum_expected_data minimum_expected_data current_expected_data then
      ⟨.error (.failedToExecute
        (some (gateMessage minimum_expected_data current_expected_data))), []⟩
    else
      let destination := env.resolve destination_path
      match dictLookup torrent infoKey with
      | none => ⟨.error .keyError, []⟩
      | some info =>
        let encoded_torrent := b64encode (bencode torrent)
        let infohash := sha1hex (bencode info)
        match mappedFilesOpt env.fs torrent destination add_name_to_folder with
        | none => ⟨.error .keyError, []⟩
        | some mapped =>
          let options : AddOptions := ⟨destination, fast_resume, mapped⟩
          let call : BackendCall := ⟨"torrent.torrent", encoded_torrent, options⟩
          match env.backend with
          | .error _ => ⟨.error (.failedToExecute none), [call]⟩
          | .ok result =>
            if result ≠ infohash then ⟨.error (.failedToExecute none), [call]⟩
            else ⟨.ok none, [call]⟩

/-- Embedding of `DelugeClient.retrieve_torrentfile` (lines 149–153): read the
daemon's persisted `.torrent` from the session store, failing when absent.
`readBytes` models `Path.is_file` plus `Path.read_bytes`. -/
def retrieve_torrentfile (session_path : String) (readBytes : String → Option Bytes)
    (infohash : String) : Except PyError Bytes :=
  let torrent_path := session_path ++ "/state/" ++ infohash ++ ".torrent"
  match readBytes torrent_path with
  | none => .error (.failedToExecute none)
  | some bs => .ok bs

end DelugeClient

/-! ### Listing (`_fetch_list_result`, `list`, `list_active`) -/

/-- A dynamically-typed value of a backend torrent record. -/
inductive DVal where
  | int (n : Int)
  | str (s : String)
deriving Repr, DecidableEq

/-- One backend torrent record: the key/value mapping `get_torrents_status`
returns for one infohash. -/
abbrev DRec := List (String × DVal)

/-- Model of Python's `record[key]` / `record.get(key)`: first matching entry. -/
def rlookup : DRec → String → Option DVal
  | [], _ => none
  | (k, v) :: xs, key => if k = key then some v else rlookup xs key

/-- The normalized torrent states (`libtc.torrent.TorrentState`, imported by
`deluge.py`; modelled from the spec's enum of the same three values, §3). -/
inductive TorrentState where
  | ACTIVE
  | ERROR
  | STOPPED
deriving Repr, DecidableEq

/-- The state normalization of `_fetch_list_result` (lines 61–66): `Seeding` and
`Downloading` map to `ACTIVE`, `Error` to `ERROR`, anything else — including a
non-string value, which Python's `in` test simply fails to match — to `STOPPED`. -/
def torrentStateOf (v : DVal) : TorrentState :=
  match v with
  | .str s =>
    if ["Seeding", "Downloading"].contains s then .ACTIVE
    else if ["Error"].contains s then .ERROR
    else .STOPPED
  | _ => .STOPPED

/-- Model of `datetime.utcfromtimestamp(t)`: a naive datetime whose wall-clock
fields read the epoch second `t` in UTC; represented by its wall-clock value in
seconds since the epoch wall clock, i.e. `t` itself. -/
def utcfromtimestamp (t : Int) : Int := t

/-- Model of `naive.astimezone(pytz.UTC)` in a process whose local timezone has
the fixed offset `off` seconds east of UTC: a naive datetime is presumed to be
local time, so the aware result denotes the instant `wall - off`. -/
def astimezoneUTC (off wall : Int) : Int := wall - off

/-- The added-at instant `_fetch_list_result` stores (lines 77–79):
`datetime.utcfromtimestamp(time_added).astimezone(pytz.UTC)`, as the epoch
second the produced timezone-aware UTC timestamp denotes. -/
def deluge_time_added (off t : Int) : Int := astimezoneUTC off (utcfromtimestamp t)

/-- The value object produced per observed torrent (`libtc.torrent.TorrentData`,
imported by `deluge.py`; fields per the spec's value object, §3, and the
constructor call at lines 70–84).  `added_at` is the epoch instant the
timezone-aware timestamp denotes. -/
structure TorrentData where
  infohash : String
  name : DVal
  total_size : DVal
  state : TorrentState
  progress : DVal
  total_uploaded : DVal
  added_at : Int
  tracker_host : DVal
  upload_payload_rate : DVal
  download_payload_rate : DVal
  label : DVal
deriving Repr, DecidableEq

/-- Build one `TorrentData` from one backend record (lines 60–85): every field
except `label` is read with `record[key]` (missing key: Python raises, here
`none`); `time_added` must be a number for `utcfromtimestamp`; `label` is read
with `record.get("label", "")`. -/
def toTorrentData (off : Int) (infohash : String) (rec : DRec) : Option TorrentData :=
  match rlookup rec "state" with
  | none => none
  | some stv =>
    match rlookup rec "name", rlookup rec "total_size", rlookup rec "progress",
        rlookup rec "total_uploaded", rlookup rec "time_added",
        rlookup rec "tracker_host", rlookup rec "upload_payload_rate",
        rlookup rec "download_payload_rate" with
    | some nm, some ts, some pr, some tu, some (.int ta), some th, some ur, some dr =>
      some ⟨infohash, nm, ts, torrentStateOf stv, pr, tu, deluge_time_added off ta,
        th, ur, dr, (rlookup rec "label").getD (.str "")⟩
    | _, _, _, _, _, _, _, _ => none

namespace DelugeClient

/-- Embedding of `DelugeClient._fetch_list_result` (lines 53–86): on a transport
failure raise `FailedToExecuteException`, otherwise build one `TorrentData` per
returned record (a malformed record raises, modelled by `keyError`).  `off` is
the process's local-timezone offset; `resp` is the outcome of
`core.get_torrents_status`. -/
def _fetch_list_result (off : Int) (resp : Except Unit (List (String × DRec))) :
    Except PyError (List TorrentData) :=
  match resp with
  | .error _ => .error (.failedToExecute none)
  | .ok recs =>
    match optMapM (fun p => toTorrentData off p.1 p.2) recs with
    | none => .error .keyError
    | some l => .ok l

/-- Environment of the listing calls: local-timezone offset and the backend's
`get_torrents_status` keyed by the filter mapping sent. -/
structure ListEnv where
  off : Int
  getTorrents : List (String × String) → Except Unit (List (String × DRec))

/-- Embedding of `DelugeClient.list` (line 88–89). -/
def list (env : ListEnv) : Except PyError (List TorrentData) :=
  _fetch_list_result env.off (env.getTorrents [])

/-- Embedding of `DelugeClient.list_active` (line 91–92). -/
def list_active (env : ListEnv) : Except PyError (List TorrentData) :=
  _fetch_list_result env.off (env.getTorrents [("state", "Active")])

end DelugeClient

/-! ### Concrete sample inputs -/

/-- A sample single-file `info` dictionary: `file.bin`, 3 bytes. -/
def sampleInfo : BValue :=
  .dict [(bytesOfString "name", .str (bytesOfString "file.bin")),
    (bytesOfString "piece length", .int 16384),
    (bytesOfString "pieces", .str [1, 2, 3, 4, 5, 6, 7, 8, 9, 10,
      11, 12, 13, 14, 15, 16, 17, 18, 19, 20]),
    (bytesOfString "length", .int 3)]

/-- A sample torrent holding `sampleInfo` and nothing else. -/
def sampleTorrent : BValue :=
  .dict [(bytesOfString "info", sampleInfo)]

/-- `sampleInfo` wrapped with an extra `announce` top-level key. -/
def sampleTorrentAnnounce : BValue :=
  .dict [(bytesOfString "announce", .str (bytesOfString "http://tracker.example/a")),
    (bytesOfString "info", sampleInfo)]

/-- `sampleInfo` wrapped with an extra `comment` top-level key. -/
def sampleTorrentComment : BValue :=
  .dict [(bytesOfString "info", sampleInfo),
    (bytesOfString "comment", .str (bytesOfString "hello"))]

/-- A sample two-file `info` dictionary: `a.txt` (2 bytes), `sub/b.txt` (4 bytes). -/
def sampleInfoMulti : BValue :=
  .dict [(bytesOfString "name", .str (bytesOfString "pack")),
    (bytesOfString "piece length", .int 16384),
    (bytesOfString "pieces", .str [1, 2, 3, 4, 5, 6, 7, 8, 9, 10,
      11, 12, 13, 14, 15, 16, 17, 18, 19, 20]),
    (bytesOfString "files", .list [
      .dict [(bytesOfString "path", .list [.str (bytesOfString "a.txt")]),
        (bytesOfString "length", .int 2)],
      .dict [(bytesOfString "path", .list [.str (bytesOfString "sub"),
          .str (bytesOfString "b.txt")]),
        (bytesOfString "length", .int 4)]])]

/-- A sample multi-file torrent holding `sampleInfoMulti`. -/
def sampleTorrentMulti : BValue :=
  .dict [(bytesOfString "info", sampleInfoMulti)]

/-- An empty filesystem: no file exists anywhere. -/
def emptyFs : FsState := fun _ => none

/-- An environment whose backend reports exactly the expected infohash of
`sampleTorrent` (a fully successful add). -/
def envOk : AddEnv :=
  ⟨emptyFs, fun s => s, .ok (sha1hex (bencode sampleInfo))⟩

/-- An environment whose backend call fails at the transport level. -/
def envTransportFail : AddEnv :=
  ⟨emptyFs, fun s => s, .error ()⟩

/-- An environment whose backend reports an infohash different from the
expected one. -/
def envMismatch : AddEnv :=
  ⟨emptyFs, fun s => s, .ok "0000000000000000000000000000000000000000"⟩

/-- The record keys `_fetch_list_result` reads with `record[key]` (everything
the `TorrentData` constructor consumes except the defaulted `label`). -/
def requiredRecKeys : List String :=
  ["name", "total_size", "state", "progress", "total_uploaded", "time_added",
   "tracker_host", "upload_payload_rate", "download_payload_rate"]

/-- A backend record holding every required key (values given by `f`, with an
integer `time_added` of `t`) and no `label` key. -/
def baseRec (f : String → DVal) (t : Int) : DRec :=
  [("name", f "name"), ("total_size", f "total_size"), ("state", f "state"),
   ("progress", f "progress"), ("total_uploaded", f "total_uploaded"),
   ("time_added", .int t), ("tracker_host", f "tracker_host"),
   ("upload_payload_rate", f "upload_payload_rate"),
   ("download_payload_rate", f "download_payload_rate")]

/-- The `TorrentData` that `baseRec f t` produces under local offset `off`. -/
def baseRecData (off : Int) (ih : String) (f : String → DVal) (t : Int) : TorrentData :=
  ⟨ih, f "name", f "total_size", torrentStateOf (f "state"), f "progress",
    f "total_uploaded", t - off, f "tracker_host", f "upload_payload_rate",
    f "download_payload_rate", .str ""⟩

/-- A concrete complete backend record with `time_added = 0`. -/
def sampleRec : DRec := baseRec (fun _ => .int 0) 0

/-! ### Helper lemmas -/

/-- `optMapM` preserves length when it succeeds. -/
theorem optMapM_length (f : α → Option β) :
    ∀ (l : List α) (l' : List β), optMapM f l = some l' → l'.length = l.length := by
  intro l
  induction l with
  | nil =>
    intro l' h
    simp [optMapM] at h
    simp [h]
  | cons x xs ih =>
    intro l' h
    unfold optMapM at h
    cases hfx : f x with
    | none => rw [hfx] at h; simp at h
    | some y =>
      rw [hfx] at h
      cases hrest : optMapM f xs with
      | none => rw [hrest] at h; simp at h
      | some ys =>
        rw [hrest] at h
        simp at h
        subst h
        simp [ih ys hrest]

/-- Positional enumeration commutes with a map that preserves the projected
field. -/
theorem enumFrom_map_field (g : String × Int → FileEntry) (hg : ∀ e, (g e).f = e.1) :
    ∀ (es : List (String × Int)) (n : Nat),
      ((es.map g).enumFrom n).map (fun p => (p.1, p.2.f)) =
        (es.enumFrom n).map fun q => (q.1, q.2.1) := by
  intro es
  induction es with
  | nil => intro n; rfl
  | cons e es ih =>
    intro n
    simp only [List.map_cons, List.enumFrom, ih (n + 1), hg e]

/-- A successful completeness classification means the torrent's declared
structure is intact: `declaredFiles` and `torrentName` both succeed. -/
theorem calc_some_parts (fs : FsState) (t : BValue) (p : String) (anf : Bool)
    (cur : String) (h : calculate_minimum_expected_data fs t p anf = some cur) :
    ∃ es name, declaredFiles t = some es ∧ torrentName t = some name := by
  unfold calculate_minimum_expected_data at h
  cases hm : map_existing_files fs t p anf with
  | none => rw [hm] at h; simp at h
  | some files =>
    unfold map_existing_files at hm
    cases hd : declaredFiles t with
    | none => rw [hd] at hm; simp at hm
    | some es =>
      cases hn : torrentName t with
      | none => rw [hd, hn] at hm; simp at hm
      | some name => exact ⟨es, name, rfl, rfl⟩

/-- A torrent with a declared file list has an `info` entry. -/
theorem declared_some_info (t : BValue) (es : List (String × Int))
    (h : declaredFiles t = some es) : ∃ info, dictLookup t infoKey = some info := by
  unfold declaredFiles at h
  cases hi : dictLookup t infoKey with
  | none => rw [hi] at h; simp at h
  | some info => exact ⟨info, rfl⟩

/-- When the declared structure is intact, the mapper succeeds for any
filesystem snapshot, path and flag, so the `mapped_files` computation does. -/
theorem mapped_some (fs : FsState) (t : BValue) (p : String) (anf : Bool)
    (es : List (String × Int)) (name : String)
    (hes : declaredFiles t = some es) (hn : torrentName t = some name) :
    ∃ mf, mappedFilesOpt fs t p anf = some mf := by
  unfold mappedFilesOpt
  by_cases hanf : anf = true
  · subst hanf; simp
  · simp only [Bool.not_eq_true] at hanf
    subst hanf
    unfold map_existing_files
    rw [hes, hn]
    simp

/-- The `mapped_files` value when `add_name_to_folder` is false: one entry per
declared file, keyed by zero-based position in declared order, holding the
declared relative path. -/
theorem mapped_false_value (fs : FsState) (t : BValue) (p : String)
    (es : List (String × Int)) (name : String)
    (hes : declaredFiles t = some es) (hn : torrentName t = some name) :
    mappedFilesOpt fs t p false = some (some (es.enum.map fun q => (q.1, q.2.1))) := by
  unfold mappedFilesOpt map_existing_files
  rw [hes, hn]
  simp only [Bool.false_eq_true, if_false, Option.map_some]
  refine congrArg some (congrArg some ?_)
  exact enumFrom_map_field _ (fun e => rfl) es 0

/-- Characterization of `DelugeClient.add` once the completeness gate has
passed: the `info` lookup and the option construction succeed, exactly one
backend call is made with the options of lines 122–131, and the outcome is
decided by the backend response and the identity check of lines 139–140. -/
theorem add_run (env : AddEnv) (t : BValue) (dst : String) (fr anf : Bool)
    (mi cur : String)
    (hcalc : calculate_minimum_expected_data env.fs t dst anf = some cur)
    (hgate : has_minimum_expected_data mi cur = true) :
    ∃ info mf,
      dictLookup t infoKey = some info ∧
      mappedFilesOpt env.fs t (env.resolve dst) anf = some mf ∧
      DelugeClient.add env t dst fr anf mi =
        ⟨match env.backend with
          | .error _ => .error (.failedToExecute none)
          | .ok r =>
            if r ≠ sha1hex (bencode info) then .error (.failedToExecute none)
            else .ok none,
         [⟨"torrent.torrent", b64encode (bencode t), ⟨env.resolve dst, fr, mf⟩⟩]⟩ := by
  obtain ⟨es, name, hes, hn⟩ := calc_some_parts env.fs t dst anf cur hcalc
  obtain ⟨info, hinfo⟩ := declared_some_info t es hes
  obtain ⟨mf, hmf⟩ := mapped_some env.fs t (env.resolve dst) anf es name hes hn
  refine ⟨info, mf, hinfo, hmf, ?_⟩
  unfold DelugeClient.add
  rw [hcalc]
  simp only [hgate, Bool.true_eq_false, not_true_eq_false, if_false, ite_not]
  rw [hinfo, hmf]
  cases env.backend with
  | error u => rfl
  | ok r =>
    by_cases hr : r = sha1hex (bencode info)
    · simp [hr]
    · simp [hr]

/-! ### Claim theorems -/

/-- C1: whenever the computed completeness classification does not reach the
caller-supplied `minimum_expected_data` policy value, `DelugeClient.add` raises
a `FailedToExecuteException` whose message names both the required and the
actual classification, and the backend call list is empty: no
`add_torrent_file` call (and no other effect of the embedded pipeline) happens
before the rejection. -/
theorem deluge_add_gate_rejection (env : AddEnv) (t : BValue) (dst : String)
    (fr anf : Bool) (mi cur : String)
    (hcalc : calculate_minimum_expected_data env.fs t dst anf = some cur)
    (hgate : has_minimum_expected_data mi cur = false) :
    DelugeClient.add env t dst fr anf mi =
      ⟨.error (.failedToExecute (some (gateMessage mi cur))), []⟩ := by
  unfold DelugeClient.add
  rw [hcalc]
  simp [hgate]

/-- Witness for C1: with an empty destination and `minimum_expected_data =
"full"`, the sample add is rejected with the message naming both levels and
makes no backend call. -/
theorem deluge_add_gate_rejection_witness :
    DelugeClient.add envOk sampleTorrent "/dst" false true "full" =
      ⟨.error (.failedToExecute (some (gateMessage "full" "none"))), []⟩ :=
  deluge_add_gate_rejection envOk sampleTorrent "/dst" false true "full" "none" rfl rfl

/-- C2: when the backend's `add_torrent_file` call completes and reports an
infohash different from the locally computed expected infohash, `add` raises
a failure (the bare `FailedToExecuteException`) and is never reported as
successful; exactly one backend call was made. -/
theorem deluge_add_identity_mismatch (env : AddEnv) (t : BValue) (dst : String)
    (fr anf : Bool) (mi cur : String) (info : BValue) (r : String)
    (hcalc : calculate_minimum_expected_data env.fs t dst anf = some cur)
    (hgate : has_minimum_expected_data mi cur = true)
    (hinfo : dictLookup t infoKey = some info)
    (hb : env.backend = .ok r)
    (hne : r ≠ sha1hex (bencode info)) :
    ∃ c, DelugeClient.add env t dst fr anf mi = ⟨.error (.failedToExecute none), [c]⟩ := by
  obtain ⟨info', mf, hinfo', hmf, hadd⟩ := add_run env t dst fr anf mi cur hcalc hgate
  have heq : info' = info := by
    rw [hinfo] at hinfo'
    exact (Option.some.inj hinfo').symm
  subst heq
  refine ⟨⟨"torrent.torrent", b64encode (bencode t), ⟨env.resolve dst, fr, mf⟩⟩, ?_⟩
  rw [hadd, hb]
  simp [hne]

set_option maxRecDepth 40000 in
/-- Witness for C2: the backend reports the all-zero infohash for the sample
torrent, and `add` fails with no success report. -/
theorem deluge_add_identity_mismatch_witness :
    ∃ c, DelugeClient.add envMismatch sampleTorrent "/dst" false true "none" =
      ⟨.error (.failedToExecute none), [c]⟩ :=
  deluge_add_identity_mismatch envMismatch sampleTorrent "/dst" false true "none" "none"
    sampleInfo "0000000000000000000000000000000000000000" rfl rfl rfl rfl (by decide)

/-- C3: the expected infohash computed inside `DelugeClient.add` (line 121) —
the hex-presented SHA-1 digest of the canonical bencoding of the `info`
sub-mapping alone — is identical for any two torrent mappings whose `info`
entries are identical, whatever other top-level keys either torrent carries. -/
theorem deluge_infohash_depends_only_on_info (t1 t2 : BValue)
    (h : dictLookup t1 infoKey = dictLookup t2 infoKey) :
    deluge_expected_infohash t1 = deluge_expected_infohash t2 := by
  unfold deluge_expected_infohash
  rw [h]

/-- Witness for C3: a torrent with an extra `announce` key and one with an
extra `comment` key, sharing the same `info` entry, have the same expected
infohash. -/
theorem deluge_infohash_depends_only_on_info_witness :
    deluge_expected_infohash sampleTorrentAnnounce =
      deluge_expected_infohash sampleTorrentComment :=
  deluge_infohash_depends_only_on_info sampleTorrentAnnounce sampleTorrentComment rfl

/-- C6: once the completeness gate has passed, the options handed to the
backend carry `download_location` equal to the resolved destination path
(the model of `Path.resolve()`: absolute, symlink-normalized) and `seed_mode`
equal to the caller's `fast_resume` flag. -/
theorem deluge_add_options_location_seed (env : AddEnv) (t : BValue) (dst : String)
    (fr anf : Bool) (mi cur : String)
    (hcalc : calculate_minimum_expected_data env.fs t dst anf = some cur)
    (hgate : has_minimum_expected_data mi cur = true) :
    ∃ c, (DelugeClient.add env t dst fr anf mi).calls = [c] ∧
      c.options.download_location = env.resolve dst ∧
      c.options.seed_mode = fr := by
  obtain ⟨info, mf, hinfo, hmf, hadd⟩ := add_run env t dst fr anf mi cur hcalc hgate
  refine ⟨⟨"torrent.torrent", b64encode (bencode t), ⟨env.resolve dst, fr, mf⟩⟩, ?_, rfl, rfl⟩
  rw [hadd]

/-- Witness for C6: the sample successful add sends the resolved destination
and mirrors `fast_resume = true` into `seed_mode`. -/
theorem deluge_add_options_location_seed_witness :
    ∃ c, (DelugeClient.add envOk sampleTorrent "/dst" true true "none").calls = [c] ∧
      c.options.download_location = envOk.resolve "/dst" ∧
      c.options.seed_mode = true :=
  deluge_add_options_location_seed envOk sampleTorrent "/dst" true true "none" "none" rfl rfl

/-- C4: the state normalization of `_fetch_list_result` is total over backend
state strings and maps each to exactly one of the three normalized states:
`Seeding` and `Downloading` to `ACTIVE`, `Error` to `ERROR`, and every other
string to `STOPPED`; and a successful listing keeps one record per backend
record, so no record is dropped because of its state. -/
theorem deluge_state_normalization :
    (torrentStateOf (.str "Seeding") = .ACTIVE ∧
     torrentStateOf (.str "Downloading") = .ACTIVE ∧
     torrentStateOf (.str "Error") = .ERROR) ∧
    (∀ s : String, s ≠ "Seeding" → s ≠ "Downloading" → s ≠ "Error" →
      torrentStateOf (.str s) = .STOPPED) ∧
    (∀ v : DVal, torrentStateOf v = .ACTIVE ∨ torrentStateOf v = .ERROR ∨
      torrentStateOf v = .STOPPED) ∧
    (∀ (off : Int) (recs : List (String × DRec)) (l : List TorrentData),
      DelugeClient._fetch_list_result off (.ok recs) = .ok l →
      l.length = recs.length) := by
  refine ⟨⟨rfl, rfl, rfl⟩, ?_, ?_, ?_⟩
  · intro s h1 h2 h3
    simp [torrentStateOf, h1, h2, h3]
  · intro v
    cases h : torrentStateOf v with
    | ACTIVE => exact .inl rfl
    | ERROR => exact .inr (.inl rfl)
    | STOPPED => exact .inr (.inr rfl)
  · intro off recs l h
    have h2 : (match optMapM (fun p => toTorrentData off p.1 p.2) recs with
      | none => (Except.error PyError.keyError : Except PyError (List TorrentData))
      | some l0 => Except.ok l0) = Except.ok l := h
    cases hm : optMapM (fun p => toTorrentData off p.1 p.2) recs with
    | none => rw [hm] at h2; simp at h2
    | some l0 =>
      rw [hm] at h2
      simp at h2
      subst h2
      exact optMapM_length _ recs l0 hm

/-- Witness for C4: the unmapped backend state `Queued` normalizes to
`STOPPED`, and a one-record listing yields exactly one `TorrentData`. -/
theorem deluge_state_normalization_witness :
    torrentStateOf (.str "Queued") = TorrentState.STOPPED ∧
    ∃ l, DelugeClient._fetch_list_result 0 (.ok [("aa", sampleRec)]) = .ok l ∧
      l.length = 1 :=
  ⟨deluge_state_normalization.2.1 "Queued" (by decide) (by decide) (by decide),
   ⟨_, rfl, deluge_state_normalization.2.2.2 0 [("aa", sampleRec)] _ rfl⟩⟩

/-- C5: the options sent to the backend carry a `mapped_files` entry exactly
when `add_name_to_folder` is false, and that entry holds one pair per declared
file, keyed by zero-based position in the torrent's declared file order, whose
value is that file's path string under the destination. -/
theorem deluge_add_mapped_files :
    (∀ (env : AddEnv) (t : BValue) (dst : String) (fr : Bool) (mi cur : String)
      (es : List (String × Int)),
      calculate_minimum_expected_data env.fs t dst false = some cur →
      has_minimum_expected_data mi cur = true →
      declaredFiles t = some es →
      ∃ c, (DelugeClient.add env t dst fr false mi).calls = [c] ∧
        c.options.mapped_files = some (es.enum.map fun q => (q.1, q.2.1))) ∧
    (∀ (env : AddEnv) (t : BValue) (dst : String) (fr : Bool) (mi cur : String),
      calculate_minimum_expected_data env.fs t dst true = some cur →
      has_minimum_expected_data mi cur = true →
      ∃ c, (DelugeClient.add env t dst fr true mi).calls = [c] ∧
        c.options.mapped_files = none) := by
  constructor
  · intro env t dst fr mi cur es hcalc hgate hdecl
    obtain ⟨es', name, hes', hn⟩ := calc_some_parts env.fs t dst false cur hcalc
    obtain ⟨info, mf, hinfo, hmf, hadd⟩ := add_run env t dst fr false mi cur hcalc hgate
    have hval := mapped_false_value env.fs t (env.resolve dst) es name hdecl hn
    rw [hval] at hmf
    have hmfeq : mf = some (es.enum.map fun q => (q.1, q.2.1)) :=
      (Option.some.inj hmf).symm
    refine ⟨⟨"torrent.torrent", b64encode (bencode t), ⟨env.resolve dst, fr, mf⟩⟩, ?_, ?_⟩
    · rw [hadd]
    · exact hmfeq
  · intro env t dst fr mi cur hcalc hgate
    obtain ⟨info, mf, hinfo, hmf, hadd⟩ := add_run env t dst fr true mi cur hcalc hgate
    have hmfeq : mf = none := by
      unfold mappedFilesOpt at hmf
      simp at hmf
      exact hmf.symm
    refine ⟨⟨"torrent.torrent", b64encode (bencode t), ⟨env.resolve dst, fr, mf⟩⟩, ?_, ?_⟩
    · rw [hadd]
    · exact hmfeq

/-- Witness for C5: the two-file sample torrent with `add_name_to_folder =
false` sends `mapped_files = {0: "a.txt", 1: "sub/b.txt"}`, while the
single-file sample with `add_name_to_folder = true` sends no `mapped_files`. -/
theorem deluge_add_mapped_files_witness :
    (∃ c, (DelugeClient.add envOk sampleTorrentMulti "/dst" false false "none").calls = [c] ∧
      c.options.mapped_files =
        some ([("a.txt", (2 : Int)), ("sub/b.txt", 4)].enum.map fun q => (q.1, q.2.1))) ∧
    (∃ c, (DelugeClient.add envOk sampleTorrent "/dst" false true "none").calls = [c] ∧
      c.options.mapped_files = none) :=
  ⟨deluge_add_mapped_files.1 envOk sampleTorrentMulti "/dst" false "none" "none"
      [("a.txt", 2), ("sub/b.txt", 4)] rfl rfl rfl,
   deluge_add_mapped_files.2 envOk sampleTorrent "/dst" false "none" "none" rfl rfl⟩

/-- C7 (amended): a fully successful `add` — gate passed, backend call
succeeded, reported infohash equal to the expected one — returns without
raising, but its return value is Python `None`; the infohash is computed
internally for the identity check and is not returned to the caller. -/
theorem deluge_add_success_returns_none (env : AddEnv) (t : BValue) (dst : String)
    (fr anf : Bool) (mi cur : String) (info : BValue)
    (hcalc : calculate_minimum_expected_data env.fs t dst anf = some cur)
    (hgate : has_minimum_expected_data mi cur = true)
    (hinfo : dictLookup t infoKey = some info)
    (hb : env.backend = .ok (sha1hex (bencode info))) :
    ∃ c, DelugeClient.add env t dst fr anf mi = ⟨.ok none, [c]⟩ := by
  obtain ⟨info', mf, hinfo', hmf, hadd⟩ := add_run env t dst fr anf mi cur hcalc hgate
  have heq : info' = info := by
    rw [hinfo] at hinfo'
    exact (Option.some.inj hinfo').symm
  subst heq
  refine ⟨⟨"torrent.torrent", b64encode (bencode t), ⟨env.resolve dst, fr, mf⟩⟩, ?_⟩
  rw [hadd, hb]
  simp

/-- Witness for the amended C7: the sample successful add returns `None`. -/
theorem deluge_add_success_returns_none_witness :
    ∃ c, DelugeClient.add envOk sampleTorrent "/dst" true true "none" =
      ⟨.ok none, [c]⟩ :=
  deluge_add_success_returns_none envOk sampleTorrent "/dst" true true "none" "none"
    sampleInfo rfl rfl rfl rfl

set_option maxRecDepth 60000 in
/-- Counterexample to C7 as stated: on a concrete fully successful call —
the backend reports exactly the locally computed expected infohash — `add`
returns Python `None`, not the torrent's infohash. -/
theorem deluge_add_returns_none_cex :
    (DelugeClient.add envOk sampleTorrent "/dst" true true "none").result =
      Except.ok none ∧
    envOk.backend = Except.ok (sha1hex (bencode sampleInfo)) ∧
    (DelugeClient.add envOk sampleTorrent "/dst" true true "none").result ≠
      Except.ok (some (sha1hex (bencode sampleInfo))) := by
  have h1 : (DelugeClient.add envOk sampleTorrent "/dst" true true "none").result =
      Except.ok none := rfl
  refine ⟨h1, rfl, ?_⟩
  rw [h1]
  simp

/-- C8 (amended): every failure of `add` that occurs once the completeness
gate has passed — transport failure or identity mismatch alike — surfaces as
the one exception kind `FailedToExecuteException` with no message, as does a
missing session-store artifact in `retrieve_torrentfile`; only the gate
rejection carries a (message) payload.  The categories are therefore not
distinguishable from the error value alone. -/
theorem deluge_failures_single_exception :
    (∀ (env : AddEnv) (t : BValue) (dst : String) (fr anf : Bool) (mi cur : String)
      (e : PyError),
      calculate_minimum_expected_data env.fs t dst anf = some cur →
      has_minimum_expected_data mi cur = true →
      (DelugeClient.add env t dst fr anf mi).result = .error e →
      e = .failedToExecute none) ∧
    (∀ (env : AddEnv) (t : BValue) (dst : String) (fr anf : Bool) (mi cur : String),
      calculate_minimum_expected_data env.fs t dst anf = some cur →
      has_minimum_expected_data mi cur = false →
      (DelugeClient.add env t dst fr anf mi).result =
        .error (.failedToExecute (some (gateMessage mi cur)))) ∧
    (∀ (sp : String) (rb : String → Option Bytes) (ih : String),
      rb (sp ++ "/state/" ++ ih ++ ".torrent") = none →
      DelugeClient.retrieve_torrentfile sp rb ih = .error (.failedToExecute none)) := by
  refine ⟨?_, ?_, ?_⟩
  · intro env t dst fr anf mi cur e hcalc hgate herr
    obtain ⟨info, mf, hinfo, hmf, hadd⟩ := add_run env t dst fr anf mi cur hcalc hgate
    rw [hadd] at herr
    cases hbe : env.backend with
    | error u =>
      rw [hbe] at herr
      simp at herr
      exact herr.symm
    | ok r =>
      rw [hbe] at herr
      by_cases hr : r = sha1hex (bencode info)
      · simp [hr] at herr
      · simp [hr] at herr
        exact herr.symm
  · intro env t dst fr anf mi cur hcalc hgate
    unfold DelugeClient.add
    rw [hcalc]
    simp [hgate]
  · intro sp rb ih hr
    have h2 : (match rb (sp ++ "/state/" ++ ih ++ ".torrent") with
      | none => (Except.error (PyError.failedToExecute none) : Except PyError Bytes)
      | some bs => Except.ok bs) = Except.error (PyError.failedToExecute none) := by
      rw [hr]
    exact h2

set_option maxRecDepth 60000 in
/-- Witness for the amended C8: a concrete gate rejection carries the message
naming both levels; a concrete missing artifact yields the bare exception;
and a concrete identity mismatch also yields the bare exception. -/
theorem deluge_failures_single_exception_witness :
    (DelugeClient.add envOk sampleTorrent "/dst" false true "full").result =
      .error (.failedToExecute (some (gateMessage "full" "none"))) ∧
    DelugeClient.retrieve_torrentfile "/s" (fun _ => none) "bb" =
      .error (.failedToExecute none) ∧
    PyError.failedToExecute none = PyError.failedToExecute none :=
  ⟨deluge_failures_single_exception.2.1 envOk sampleTorrent "/dst" false true "full"
      "none" rfl rfl,
   deluge_failures_single_exception.2.2 "/s" (fun _ => none) "bb" rfl,
   deluge_failures_single_exception.1 envMismatch sampleTorrent "/dst" false true
      "none" "none" (.failedToExecute none) rfl rfl rfl⟩

set_option maxRecDepth 60000 in
/-- Counterexample to C8 as stated: three failing calls of three different
taxonomy categories — a transport failure during `add`, an identity mismatch
after a completed backend call, and a missing session-store artifact in
`retrieve_torrentfile` — produce identical error values, so a caller cannot
determine the category from the error value alone. -/
theorem deluge_error_indistinguishable_cex :
    (DelugeClient.add envTransportFail sampleTorrent "/dst" false true "none").result =
      .error (.failedToExecute none) ∧
    (DelugeClient.add envMismatch sampleTorrent "/dst" false true "none").result =
      .error (.failedToExecute none) ∧
    DelugeClient.retrieve_torrentfile "/session" (fun _ => none) "aa" =
      .error (.failedToExecute none) :=
  ⟨rfl, rfl, rfl⟩

/-- C9 (code evaluation at the failing input): the produced added-at instant
is `time_added - local_offset`, not `time_added`: on a record with
`time_added = 0` in a process at UTC+1 (offset 3600 s), the stored aware UTC
timestamp denotes the instant −3600 (1969-12-31T23:00:00Z), which differs from
the reported epoch instant 0.  The composition
`datetime.utcfromtimestamp(t).astimezone(pytz.UTC)` applies `astimezone` to a
naive datetime, reinterpreting the UTC wall clock as local time. -/
theorem deluge_added_at_shifted_by_local_offset :
    (∀ off t : Int, deluge_time_added off t = t - off) ∧
    (toTorrentData 3600 "aa" sampleRec).map (fun td => td.added_at) = some (-3600) ∧
    rlookup sampleRec "time_added" = some (.int 0) ∧
    (-3600 : Int) ≠ 0 := by
  refine ⟨fun off t => rfl, by decide, rfl, by decide⟩

/-- C10: a backend record holding every required key but no `label` key still
yields a `TorrentData` (so `list` and `list_active` succeed), with `label`
defaulted to the empty string; and `label` is the only such field — dropping
any of the other required keys makes the record construction fail. -/
theorem deluge_label_default (off : Int) (ih : String) (f : String → DVal) (t : Int) :
    toTorrentData off ih (baseRec f t) = some (baseRecData off ih f t) ∧
    DelugeClient.list ⟨off, fun _ => .ok [(ih, baseRec f t)]⟩ =
      .ok [baseRecData off ih f t] ∧
    DelugeClient.list_active ⟨off, fun _ => .ok [(ih, baseRec f t)]⟩ =
      .ok [baseRecData off ih f t] ∧
    (∀ k, k ∈ requiredRecKeys →
      toTorrentData off ih ((baseRec f t).filter (fun p => p.1 != k)) = none) := by
  refine ⟨rfl, rfl, rfl, ?_⟩
  intro k hk
  fin_cases hk <;> rfl

/-- Witness for C10: a concrete record without `label` maps to a `TorrentData`
with empty label, and the same record with its `name` key dropped fails. -/
theorem deluge_label_default_witness :
    toTorrentData 2 "hh" (baseRec (fun _ => DVal.int 7) 5) =
      some (baseRecData 2 "hh" (fun _ => DVal.int 7) 5) ∧
    toTorrentData 2 "hh" ((baseRec (fun _ => DVal.int 7) 5).filter
      (fun p => p.1 != "name")) = none :=
  ⟨(deluge_label_default 2 "hh" (fun _ => DVal.int 7) 5).1,
   (deluge_label_default 2 "hh" (fun _ => DVal.int 7) 5).2.2.2 "name" (by decide)⟩
